import Mathlib

/-!
# Verification of the MovieLens EDA script (`MovieLens_EDA.py`)

Shallow embedding of the computation performed by the script over the three
input tables (movie, ratings, user).  Tables are lists of rows; the pandas
operations used by the script are modelled as pure functions:

* `Series.value_counts`   → `value_counts` (counts of distinct values,
  sorted by count descending; the sort is a deterministic merge sort, and
  real arithmetic is modelled exactly with `ℚ`);
* `groupby(k)[v].mean()`  → a map over the sorted distinct keys pairing each
  key with the mean of the values in its group;
* boolean-mask filtering  → `List.filter`;
* `Series.sort_values(ascending=False)` → a descending merge sort;
* `.head n`               → `List.take n`;
* indexing a series by a list of labels (`s[ix]`, raising `KeyError` on a
  missing label) → an `Option`-valued lookup chain;
* `DataFrame.merge(on=k)` (inner join) → `mergeOn`.
-/

/-- A row of `ratings.csv`: user id, movie id and the rating value.
Ratings are small integers (1–5) in the data; the value is carried as `ℚ`
so that the means computed by the script are exact. -/
structure RatingRow where
  userId : Nat
  movieId : Nat
  rating : ℚ
deriving DecidableEq

/-- A row of `movie.csv` (only the columns the script uses). -/
structure MovieRow where
  movieId : Nat
  title : String
deriving DecidableEq

/-- A row of `user.csv` (only the columns the script uses). -/
structure UserRow where
  userId : Nat
  age : Nat
  gender : String
  occupation : String
deriving DecidableEq

/-- `Series.value_counts`: each distinct value of the column paired with the
number of its occurrences, sorted by count descending. -/
def value_counts {α : Type} [DecidableEq α] (l : List α) : List (α × Nat) :=
  (l.dedup.map (fun x => (x, l.count x))).insertionSort (fun p q => q.2 ≤ p.2)

/-- Line 113: `ratings_per_movie = ratings['movie id'].value_counts()`. -/
def ratings_per_movie (ratings : List RatingRow) : List (Nat × Nat) :=
  value_counts (ratings.map (·.movieId))

/-- The ratings column restricted to one movie:
`ratings[ratings['movie id'] == m]['rating']`. -/
def movieRatings (ratings : List RatingRow) (m : Nat) : List ℚ :=
  (ratings.filter (fun row => row.movieId = m)).map (·.rating)

/-- The mean of one group of the `groupby('movie id')['rating'].mean()`
aggregation. -/
def groupMean (ratings : List RatingRow) (m : Nat) : ℚ :=
  (movieRatings ratings m).sum / ((movieRatings ratings m).length : ℚ)

/-- Line 124: `avg_rating_per_movie = ratings.groupby('movie id')['rating'].mean()`;
pandas lists the group keys in ascending order. -/
def avg_rating_per_movie (ratings : List RatingRow) : List (Nat × ℚ) :=
  (((ratings.map (·.movieId)).dedup.insertionSort (fun a b => a ≤ b)).map
    (fun m => (m, groupMean ratings m)))

/-- Line 136 generalised over the threshold:
`ratings_per_movie[ratings_per_movie >= t]`. -/
def filtered_movies_t (t : Nat) (ratings : List RatingRow) : List (Nat × Nat) :=
  (ratings_per_movie ratings).filter (fun p => decide (t ≤ p.2))

/-- Line 136: `filtered_movies = ratings_per_movie[ratings_per_movie >= 50]`. -/
def filtered_movies (ratings : List RatingRow) : List (Nat × Nat) :=
  filtered_movies_t 50 ratings

/-- Label lookup in a series (list of key/value pairs): `some` of the first
value at the label, `none` when the label is absent (pandas `KeyError`). -/
def seriesLookup {α : Type} [DecidableEq α] (s : List (α × ℚ)) (k : α) : Option ℚ :=
  (s.find? (fun p => p.1 = k)).map (·.2)

/-- Indexing the series `s` by a list of labels, as in `s[ix]`: the whole
result is `none` as soon as one label is missing (the `KeyError` branch). -/
def seriesSelect {α : Type} [DecidableEq α] (s : List (α × ℚ)) :
    List α → Option (List (α × ℚ))
  | [] => some []
  | k :: ks =>
    match seriesLookup s k, seriesSelect s ks with
    | some v, some rest => some ((k, v) :: rest)
    | _, _ => none

/-- Line 141 as the script executes it, `KeyError` branch included:
`filtered_avg_ratings = avg_rating_per_movie[filtered_movies.index]`. -/
def filtered_avg_ratings_opt_t (t : Nat) (ratings : List RatingRow) :
    Option (List (Nat × ℚ)) :=
  seriesSelect (avg_rating_per_movie ratings)
    ((filtered_movies_t t ratings).map (·.1))

/-- The value line 141 produces when no lookup fails: each retained movie id
paired with its group mean. -/
def filtered_avg_ratings_t (t : Nat) (ratings : List RatingRow) : List (Nat × ℚ) :=
  (filtered_movies_t t ratings).map (fun p => (p.1, groupMean ratings p.1))

/-- Line 141 at the script's hard-coded threshold 50. -/
def filtered_avg_ratings (ratings : List RatingRow) : List (Nat × ℚ) :=
  filtered_avg_ratings_t 50 ratings

/-- Line 146: `top_10_movies = filtered_avg_ratings.sort_values(ascending=False).head(10)`. -/
def top_10_movies (ratings : List RatingRow) : List (Nat × ℚ) :=
  ((filtered_avg_ratings ratings).insertionSort (fun p q => q.2 ≤ p.2)).take 10

/-- Inner join of two tables on a key, as `DataFrame.merge(on=..)` with the
default `how='inner'`: every left row is combined with every right row whose
key matches; rows without a partner contribute nothing. -/
def mergeOn {A B K : Type} [DecidableEq K] (kl : A → K) (kr : B → K)
    (left : List A) (right : List B) : List (A × B) :=
  left.flatMap (fun a => (right.filter (fun b => kr b = kl a)).map (fun b => (a, b)))

/-- Line 155: `movie_titles = movie[['movie id', 'movie title']]`. -/
def movie_titles (movie : List MovieRow) : List (Nat × String) :=
  movie.map (fun mv => (mv.movieId, mv.title))

/-- Lines 159–160: `top_10_movies_df = top_10_movies.reset_index().merge(movie_titles, on='movie id')`. -/
def top_10_movies_df (movie : List MovieRow) (ratings : List RatingRow) :
    List ((Nat × ℚ) × (Nat × String)) :=
  mergeOn Prod.fst Prod.fst (top_10_movies ratings) (movie_titles movie)

/-- Line 211: `ratings_users = ratings.merge(user, on='user id')`. -/
def ratings_users (ratings : List RatingRow) (user : List UserRow) :
    List (RatingRow × UserRow) :=
  mergeOn RatingRow.userId UserRow.userId ratings user

/-- The gender column of the joined table, whose distinct values key the
`groupby('gender')` aggregation of line 214. -/
def genderColumn (ratings : List RatingRow) (user : List UserRow) : List String :=
  (ratings_users ratings user).map (fun p => p.2.gender)

/-- The ratings of one gender group of the joined table. -/
def genderGroup (ratings : List RatingRow) (user : List UserRow) (g : String) : List ℚ :=
  ((ratings_users ratings user).filter (fun p => p.2.gender = g)).map (fun p => p.1.rating)

/-- Line 214: `avg_rating_by_gender = ratings_users.groupby('gender')['rating'].mean()`. -/
def avg_rating_by_gender (ratings : List RatingRow) (user : List UserRow) :
    List (String × ℚ) :=
  ((genderColumn ratings user).dedup.insertionSort (fun a b => a ≤ b)).map
    (fun g => (g, (genderGroup ratings user g).sum / ((genderGroup ratings user g).length : ℚ)))

/-- Line 232: `ratings_by_occupation = ratings_users['occupation'].value_counts()`. -/
def ratings_by_occupation (ratings : List RatingRow) (user : List UserRow) :
    List (String × Nat) :=
  value_counts ((ratings_users ratings user).map (fun p => p.2.occupation))

/-- Line 128: `top_10_highest_rated = avg_rating_per_movie.sort_values(ascending=False).head(10)`. -/
def top_10_highest_rated (ratings : List RatingRow) : List (Nat × ℚ) :=
  ((avg_rating_per_movie ratings).insertionSort (fun p q => q.2 ≤ p.2)).take 10

/-- Everything the script binds while it runs: the three base tables as
loaded, and every derived aggregate of Steps 4–6.  Each pandas operation the
script uses (`value_counts`, `groupby(..).mean()`, boolean-mask selection,
`sort_values`, `head`, `reset_index`, `merge`, and the plotting calls)
returns a fresh object, so a run is a function of the loaded tables. -/
structure ScriptRun where
  movie : List MovieRow
  ratings : List RatingRow
  user : List UserRow
  ratings_per_movie : List (Nat × Nat)
  avg_rating_per_movie : List (Nat × ℚ)
  top_10_highest_rated : List (Nat × ℚ)
  filtered_movies : List (Nat × Nat)
  filtered_avg_ratings : List (Nat × ℚ)
  top_10_movies : List (Nat × ℚ)
  movie_titles : List (Nat × String)
  top_10_movies_df : List ((Nat × ℚ) × (Nat × String))
  ratings_users : List (RatingRow × UserRow)
  avg_rating_by_gender : List (String × ℚ)
  ratings_by_occupation : List (String × Nat)

/-- Steps 4–6 of the script, run top to bottom on the loaded tables. -/
def runScript (movie : List MovieRow) (ratings : List RatingRow)
    (user : List UserRow) : ScriptRun :=
  { movie := movie
    ratings := ratings
    user := user
    ratings_per_movie := ratings_per_movie ratings
    avg_rating_per_movie := avg_rating_per_movie ratings
    top_10_highest_rated := top_10_highest_rated ratings
    filtered_movies := filtered_movies ratings
    filtered_avg_ratings := filtered_avg_ratings ratings
    top_10_movies := top_10_movies ratings
    movie_titles := movie_titles movie
    top_10_movies_df := top_10_movies_df movie ratings
    ratings_users := ratings_users ratings user
    avg_rating_by_gender := avg_rating_by_gender ratings user
    ratings_by_occupation := ratings_by_occupation ratings user }

/-- A small concrete ratings table: movie 1 is rated 5, 5 and 4 by users 1–3,
movie 2 is rated 1 by user 4. -/
def fixtureRatings : List RatingRow :=
  [⟨1, 1, 5⟩, ⟨2, 1, 5⟩, ⟨3, 1, 4⟩, ⟨4, 2, 1⟩]

/-- A small concrete user table; user 4 is absent. -/
def fixtureUsers : List UserRow :=
  [⟨1, 25, "M", "student"⟩, ⟨2, 30, "F", "engineer"⟩, ⟨3, 40, "M", "educator"⟩]

/-- A small concrete movie table. -/
def fixtureMovies : List MovieRow :=
  [⟨1, "Movie One"⟩, ⟨2, "Movie Two"⟩]

/-- Minimum of a rating column (0 on an empty column, unused there). -/
def listMin : List ℚ → ℚ
  | [] => 0
  | x :: xs => xs.foldl min x

/-- Maximum of a rating column (0 on an empty column, unused there). -/
def listMax : List ℚ → ℚ
  | [] => 0
  | x :: xs => xs.foldl max x

/- ### General lemmas about the embedded operations -/

theorem foldl_min_le (xs : List ℚ) (a : ℚ) :
    xs.foldl min a ≤ a ∧ ∀ x ∈ xs, xs.foldl min a ≤ x := by
  induction xs generalizing a with
  | nil => exact ⟨le_refl a, by intro x hx; cases hx⟩
  | cons y ys ih =>
    obtain ⟨h1, h2⟩ := ih (min a y)
    refine ⟨h1.trans (min_le_left a y), ?_⟩
    intro x hx
    rcases List.mem_cons.mp hx with rfl | hx
    · exact h1.trans (min_le_right a x)
    · exact h2 x hx

theorem le_foldl_max (xs : List ℚ) (a : ℚ) :
    a ≤ xs.foldl max a ∧ ∀ x ∈ xs, x ≤ xs.foldl max a := by
  induction xs generalizing a with
  | nil => exact ⟨le_refl a, by intro x hx; cases hx⟩
  | cons y ys ih =>
    obtain ⟨h1, h2⟩ := ih (max a y)
    refine ⟨(le_max_left a y).trans h1, ?_⟩
    intro x hx
    rcases List.mem_cons.mp hx with rfl | hx
    · exact (le_max_right a x).trans h1
    · exact h2 x hx

theorem listMin_le_of_mem {l : List ℚ} {x : ℚ} (hx : x ∈ l) : listMin l ≤ x := by
  cases l with
  | nil => cases hx
  | cons y ys =>
    rcases List.mem_cons.mp hx with rfl | hx
    · exact (foldl_min_le ys x).1
    · exact (foldl_min_le ys y).2 x hx

theorem le_listMax_of_mem {l : List ℚ} {x : ℚ} (hx : x ∈ l) : x ≤ listMax l := by
  cases l with
  | nil => cases hx
  | cons y ys =>
    rcases List.mem_cons.mp hx with rfl | hx
    · exact (le_foldl_max ys x).1
    · exact (le_foldl_max ys y).2 x hx

/-- The mean of a nonempty list of rationals lies between its minimum and
its maximum. -/
theorem mean_mem_interval {l : List ℚ} (h : l ≠ []) :
    listMin l ≤ l.sum / (l.length : ℚ) ∧ l.sum / (l.length : ℚ) ≤ listMax l := by
  have hlen : 0 < (l.length : ℚ) := by
    have : 0 < l.length := List.length_pos.mpr h
    exact_mod_cast this
  constructor
  · rw [le_div_iff₀ hlen]
    have := List.card_nsmul_le_sum l (listMin l) (fun x hx => listMin_le_of_mem hx)
    rw [nsmul_eq_mul] at this
    linarith
  · rw [div_le_iff₀ hlen]
    have := List.sum_le_card_nsmul l (listMax l) (fun x hx => le_listMax_of_mem hx)
    rw [nsmul_eq_mul] at this
    linarith

/-- Membership in an inner join: exactly the pairs of a left and a right row
with equal keys. -/
theorem mem_mergeOn {A B K : Type} [DecidableEq K] {kl : A → K} {kr : B → K}
    {left : List A} {right : List B} {q : A × B} :
    q ∈ mergeOn kl kr left right ↔ q.1 ∈ left ∧ q.2 ∈ right ∧ kr q.2 = kl q.1 := by
  unfold mergeOn
  rw [List.mem_flatMap]
  constructor
  · rintro ⟨a, ha, hq⟩
    obtain ⟨b, hb, rfl⟩ := List.mem_map.mp hq
    obtain ⟨hb1, hb2⟩ := List.mem_filter.mp hb
    exact ⟨ha, hb1, by simpa using hb2⟩
  · rintro ⟨h1, h2, h3⟩
    exact ⟨q.1, h1, List.mem_map.mpr
      ⟨q.2, List.mem_filter.mpr ⟨h2, by simpa using h3⟩, rfl⟩⟩

/-- Looking up a movie id that occurs in the ratings table in the group-by
mean series succeeds and returns the group mean. -/
theorem seriesLookup_avg {ratings : List RatingRow} {m : Nat}
    (h : m ∈ ratings.map (·.movieId)) :
    seriesLookup (avg_rating_per_movie ratings) m = some (groupMean ratings m) := by
  have hm : m ∈ ((ratings.map (·.movieId)).dedup.insertionSort (fun a b => a ≤ b)) := by
    rw [List.mem_insertionSort, List.mem_dedup]; exact h
  have hsome : ((avg_rating_per_movie ratings).find? (fun p => p.1 = m)).isSome := by
    rw [List.find?_isSome]
    refine ⟨(m, groupMean ratings m), ?_, by simp⟩
    exact List.mem_map.mpr ⟨m, hm, rfl⟩
  obtain ⟨q, hq⟩ := Option.isSome_iff_exists.mp hsome
  have hq1 : q.1 = m := by simpa using List.find?_some hq
  obtain ⟨k, _, hkq⟩ := List.mem_map.mp (List.mem_of_find?_eq_some hq)
  have hk : k = m := by rw [← hq1, ← hkq]
  have hqval : q = (m, groupMean ratings m) := by rw [← hkq, hk]
  unfold seriesLookup
  rw [hq, hqval]
  rfl

/-- Indexing a series by a list of labels succeeds when every label resolves,
and returns the looked-up pairs in order. -/
theorem seriesSelect_eq_some {s : List (Nat × ℚ)} {f : Nat → ℚ} :
    ∀ {ks : List Nat}, (∀ k ∈ ks, seriesLookup s k = some (f k)) →
      seriesSelect s ks = some (ks.map (fun k => (k, f k)))
  | [], _ => rfl
  | k :: ks, h => by
    have hk := h k (List.mem_cons_self k ks)
    have hks := seriesSelect_eq_some (s := s) (f := f)
      (fun k' hk' => h k' (List.mem_cons_of_mem k hk'))
    unfold seriesSelect
    rw [hk, hks]
    rfl

/-- Membership in `value_counts`: the pairs are exactly the distinct column
values with their occurrence counts. -/
theorem mem_value_counts {α : Type} [DecidableEq α] {l : List α} {p : α × Nat} :
    p ∈ value_counts l ↔ p.1 ∈ l ∧ p.2 = l.count p.1 := by
  unfold value_counts
  rw [List.mem_insertionSort, List.mem_map]
  constructor
  · rintro ⟨x, hx, rfl⟩
    exact ⟨List.mem_dedup.mp hx, rfl⟩
  · rintro ⟨h1, h2⟩
    exact ⟨p.1, List.mem_dedup.mpr h1, by rw [← h2]⟩

/-- The counts listed by `value_counts` sum to the length of the column. -/
theorem sum_value_counts {α : Type} [DecidableEq α] (l : List α) :
    ((value_counts l).map (·.2)).sum = l.length := by
  unfold value_counts
  have hperm :
      List.Perm
        (((l.dedup.map (fun x => (x, l.count x))).insertionSort
          (fun p q => q.2 ≤ p.2)).map (fun p : α × Nat => p.2))
        ((l.dedup.map (fun x => (x, l.count x))).map (fun p : α × Nat => p.2)) :=
    (List.perm_insertionSort _ _).map _
  rw [hperm.sum_eq, List.map_map]
  simpa using List.sum_map_count_dedup_eq_length l

/- ### Claims -/

/-- C7: for every ratings table, the per-movie rating counts produced by
`value_counts` on the movie-id column sum to the total number of rating
rows. -/
theorem ratings_per_movie_counts_sum (ratings : List RatingRow) :
    ((ratings_per_movie ratings).map (·.2)).sum = ratings.length := by
  unfold ratings_per_movie
  rw [sum_value_counts]
  simp

/-- C4: every movie with at least one rating appears in the group-by-mean
aggregation, and its mean rating lies in the closed interval between its
minimum and its maximum rating. -/
theorem avg_rating_within_min_max (ratings : List RatingRow) (m : Nat)
    (h : m ∈ ratings.map (·.movieId)) :
    (m, groupMean ratings m) ∈ avg_rating_per_movie ratings ∧
    listMin (movieRatings ratings m) ≤ groupMean ratings m ∧
    groupMean ratings m ≤ listMax (movieRatings ratings m) := by
  obtain ⟨row, hrow, hrm⟩ := List.mem_map.mp h
  have hfil : row ∈ ratings.filter (fun r => r.movieId = m) :=
    List.mem_filter.mpr ⟨hrow, by simpa using hrm⟩
  have hne : movieRatings ratings m ≠ [] :=
    List.ne_nil_of_mem (List.mem_map.mpr ⟨row, hfil, rfl⟩)
  refine ⟨?_, mean_mem_interval hne⟩
  have hm : m ∈ ((ratings.map (·.movieId)).dedup.insertionSort (fun a b => a ≤ b)) := by
    rw [List.mem_insertionSort, List.mem_dedup]; exact h
  exact List.mem_map.mpr ⟨m, hm, rfl⟩

/-- Witness for C4 on the concrete fixture: movie 1 has ratings 5, 5, 4. -/
theorem avg_rating_within_min_max_witness :
    (1, groupMean fixtureRatings 1) ∈ avg_rating_per_movie fixtureRatings ∧
    listMin (movieRatings fixtureRatings 1) ≤ groupMean fixtureRatings 1 ∧
    groupMean fixtureRatings 1 ≤ listMax (movieRatings fixtureRatings 1) :=
  avg_rating_within_min_max fixtureRatings 1 (by decide)

/-- C9: selecting `avg_rating_per_movie` at the labels of `filtered_movies`
never takes the `KeyError` branch: the selection succeeds on every input and
yields each retained movie id paired with its group mean. -/
theorem filtered_avg_ratings_total (ratings : List RatingRow) :
    filtered_avg_ratings_opt_t 50 ratings = some (filtered_avg_ratings ratings) := by
  unfold filtered_avg_ratings_opt_t filtered_avg_ratings filtered_avg_ratings_t
  have hkeys : ∀ k ∈ (filtered_movies_t 50 ratings).map (·.1),
      seriesLookup (avg_rating_per_movie ratings) k = some (groupMean ratings k) := by
    intro k hk
    obtain ⟨p, hp, rfl⟩ := List.mem_map.mp hk
    have hp' : p ∈ ratings_per_movie ratings := (List.mem_filter.mp hp).1
    exact seriesLookup_avg (mem_value_counts.mp hp').1
  rw [seriesSelect_eq_some hkeys, List.map_map]
  rfl

/-- C10: `head(10)` never fails: the top-10 list has exactly
`min 10 n` entries where `n` is the number of movies passing the 50-rating
filter, and it is empty when nothing passes. -/
theorem top_10_movies_length (ratings : List RatingRow) :
    (top_10_movies ratings).length = min 10 (filtered_movies ratings).length ∧
    (filtered_movies ratings = [] → top_10_movies ratings = []) := by
  have hlen : (top_10_movies ratings).length = min 10 (filtered_movies ratings).length := by
    unfold top_10_movies
    rw [List.length_take, List.length_insertionSort]
    unfold filtered_avg_ratings filtered_avg_ratings_t filtered_movies
    rw [List.length_map]
  refine ⟨hlen, fun hempty => ?_⟩
  have : (top_10_movies ratings).length = 0 := by rw [hlen, hempty]; rfl
  exact List.eq_nil_of_length_eq_zero this

/-- Witness for C10: on the fixture no movie reaches 50 ratings and the
top-10 list is empty. -/
theorem top_10_movies_length_witness : top_10_movies fixtureRatings = [] :=
  (top_10_movies_length fixtureRatings).2 (by decide)

/-- C8: running Steps 4–6 of the script leaves the three loaded base tables
unchanged; every derived result is a separate value. -/
theorem base_tables_unchanged (movie : List MovieRow) (ratings : List RatingRow)
    (user : List UserRow) :
    (runScript movie ratings user).movie = movie ∧
    (runScript movie ratings user).ratings = ratings ∧
    (runScript movie ratings user).user = user :=
  ⟨rfl, rfl, rfl⟩

/-- C1: the threshold-50 filter partitions the per-movie counts exactly:
retained pairs are true counts of rated movies and are at least 50, a rated
movie is retained iff its count reaches 50, and it is either retained or has
count below 50 but never both. -/
theorem popularity_filter_partition (ratings : List RatingRow) (m : Nat)
    (h : m ∈ ratings.map (·.movieId)) :
    (∀ p ∈ filtered_movies ratings,
      50 ≤ p.2 ∧ p.2 = (ratings.map (·.movieId)).count p.1 ∧
        p.1 ∈ ratings.map (·.movieId)) ∧
    ((m, (ratings.map (·.movieId)).count m) ∈ filtered_movies ratings ↔
      50 ≤ (ratings.map (·.movieId)).count m) ∧
    Xor' ((m, (ratings.map (·.movieId)).count m) ∈ filtered_movies ratings)
      ((ratings.map (·.movieId)).count m < 50) := by
  unfold filtered_movies filtered_movies_t ratings_per_movie
  have hiff : (m, (ratings.map (·.movieId)).count m) ∈
      (value_counts (ratings.map (·.movieId))).filter (fun p => decide (50 ≤ p.2)) ↔
      50 ≤ (ratings.map (·.movieId)).count m := by
    constructor
    · intro hmem
      simpa using (List.mem_filter.mp hmem).2
    · intro hge
      exact List.mem_filter.mpr ⟨mem_value_counts.mpr ⟨h, rfl⟩, by simpa using hge⟩
  refine ⟨?_, hiff, ?_⟩
  · intro p hp
    obtain ⟨hv, hge⟩ := List.mem_filter.mp hp
    obtain ⟨h1, h2⟩ := mem_value_counts.mp hv
    exact ⟨by simpa using hge, h2, h1⟩
  · by_cases hge : 50 ≤ (ratings.map (·.movieId)).count m
    · exact Or.inl ⟨hiff.mpr hge, by omega⟩
    · exact Or.inr ⟨by omega, fun hmem => hge (hiff.mp hmem)⟩

/-- Witness for C1 on the fixture: movie 2 has one rating, so it is not
retained, and the partition is exact there. -/
theorem popularity_filter_partition_witness :
    ((2, (fixtureRatings.map (·.movieId)).count 2) ∈ filtered_movies fixtureRatings ↔
      50 ≤ (fixtureRatings.map (·.movieId)).count 2) ∧
    Xor' ((2, (fixtureRatings.map (·.movieId)).count 2) ∈ filtered_movies fixtureRatings)
      ((fixtureRatings.map (·.movieId)).count 2 < 50) :=
  ⟨(popularity_filter_partition fixtureRatings 2 (by decide)).2.1,
   (popularity_filter_partition fixtureRatings 2 (by decide)).2.2⟩

/-- C2: the top-10 list is the first ten entries of the descending sort of
the filtered means, it is ordered by descending mean rating, and the result
(tie order included) is a function of the input, hence identical on every
run over the same input. -/
theorem top_10_sorted_deterministic (ratings : List RatingRow) :
    top_10_movies ratings =
      ((filtered_avg_ratings ratings).insertionSort (fun p q => q.2 ≤ p.2)).take 10 ∧
    List.Pairwise (fun p q : Nat × ℚ => q.2 ≤ p.2) (top_10_movies ratings) ∧
    (∀ ratings' : List RatingRow, ratings = ratings' →
      top_10_movies ratings = top_10_movies ratings') := by
  haveI : IsTotal (Nat × ℚ) (fun p q => q.2 ≤ p.2) := ⟨fun a b => le_total b.2 a.2⟩
  haveI : IsTrans (Nat × ℚ) (fun p q => q.2 ≤ p.2) :=
    ⟨fun _ _ _ hab hbc => le_trans hbc hab⟩
  refine ⟨rfl, ?_, fun r' hr => by rw [hr]⟩
  have hs : List.Pairwise (fun p q : Nat × ℚ => q.2 ≤ p.2)
      ((filtered_avg_ratings ratings).insertionSort (fun p q => q.2 ≤ p.2)) :=
    List.sorted_insertionSort _ _
  exact List.Pairwise.sublist (List.take_sublist 10 _) hs

/-- Witness for C2 on the fixture. -/
theorem top_10_sorted_deterministic_witness :
    List.Pairwise (fun p q : Nat × ℚ => q.2 ≤ p.2) (top_10_movies fixtureRatings) ∧
    top_10_movies fixtureRatings = top_10_movies fixtureRatings :=
  ⟨(top_10_sorted_deterministic fixtureRatings).2.1,
   (top_10_sorted_deterministic fixtureRatings).2.2 fixtureRatings rfl⟩

/-- C3: on the fixture (movie 1 rated 5, 5, 4; movie 2 rated 1 once) the
count-filter-mean pipeline at threshold 2 retains exactly movie 1, whose
mean is 14/3, and movie 2 is excluded. -/
theorem fixture_threshold_two :
    filtered_movies_t 2 fixtureRatings = [(1, 3)] ∧
    filtered_avg_ratings_t 2 fixtureRatings = [(1, 14 / 3)] ∧
    (2, 1) ∉ filtered_movies_t 2 fixtureRatings := by
  have hfm : filtered_movies_t 2 fixtureRatings = [(1, 3)] := by decide
  refine ⟨hfm, ?_, by decide⟩
  unfold filtered_avg_ratings_t
  rw [hfm]
  have hmean : groupMean fixtureRatings 1 = 14 / 3 := by
    simp [groupMean, movieRatings, fixtureRatings]
    norm_num
  simp [hmean]

/-- C5: both merges of the script are inner joins: a result row is exactly a
matched pair of input rows, and an input row whose key has no partner
contributes no row at all (it is dropped without any error value). -/
theorem inner_joins_drop_unmatched (movie : List MovieRow) (ratings : List RatingRow)
    (user : List UserRow) :
    (∀ q, q ∈ top_10_movies_df movie ratings ↔
      q.1 ∈ top_10_movies ratings ∧ q.2 ∈ movie_titles movie ∧ q.2.1 = q.1.1) ∧
    (∀ q, q ∈ ratings_users ratings user ↔
      q.1 ∈ ratings ∧ q.2 ∈ user ∧ q.2.userId = q.1.userId) ∧
    (∀ p ∈ top_10_movies ratings, (∀ mt ∈ movie_titles movie, mt.1 ≠ p.1) →
      ∀ q ∈ top_10_movies_df movie ratings, q.1 ≠ p) ∧
    (∀ r ∈ ratings, (∀ u ∈ user, u.userId ≠ r.userId) →
      ∀ q ∈ ratings_users ratings user, q.1 ≠ r) := by
  have h1 : ∀ q, q ∈ top_10_movies_df movie ratings ↔
      q.1 ∈ top_10_movies ratings ∧ q.2 ∈ movie_titles movie ∧ q.2.1 = q.1.1 := by
    intro q
    unfold top_10_movies_df
    exact mem_mergeOn
  have h2 : ∀ q, q ∈ ratings_users ratings user ↔
      q.1 ∈ ratings ∧ q.2 ∈ user ∧ q.2.userId = q.1.userId := by
    intro q
    unfold ratings_users
    exact mem_mergeOn
  refine ⟨h1, h2, ?_, ?_⟩
  · intro p _ hnone q hq heq
    obtain ⟨_, hmt, hkey⟩ := (h1 q).mp hq
    exact hnone q.2 hmt (by rw [hkey, heq])
  · intro r _ hnone q hq heq
    obtain ⟨_, hu, hkey⟩ := (h2 q).mp hq
    exact hnone q.2 hu (by rw [hkey, heq])

/-- Witness for C5 on the fixture: the matched pair for user 1 is in the
join, and rating row of user 4 (absent from the user table) pairs with
nothing. -/
theorem inner_joins_drop_unmatched_witness :
    ((⟨1, 1, 5⟩ : RatingRow), (⟨1, 25, "M", "student"⟩ : UserRow)) ∈
      ratings_users fixtureRatings fixtureUsers ∧
    ((⟨4, 2, 1⟩ : RatingRow), (⟨2, 30, "F", "engineer"⟩ : UserRow)) ∉
      ratings_users fixtureRatings fixtureUsers := by
  constructor
  · exact ((inner_joins_drop_unmatched fixtureMovies fixtureRatings fixtureUsers).2.1 _).mpr
      ⟨by decide, by decide, rfl⟩
  · intro hmem
    have h := ((inner_joins_drop_unmatched fixtureMovies fixtureRatings fixtureUsers).2.1 _).mp hmem
    exact absurd h.2.2 (by decide)

/-- C6: the per-occupation counts and the per-gender group sizes each sum to
the number of rows of the joined table, and a rating row appears in the join
iff its user id matches some user row. -/
theorem demographic_counts_partition (ratings : List RatingRow) (user : List UserRow) :
    ((ratings_by_occupation ratings user).map (·.2)).sum
        = (ratings_users ratings user).length ∧
    ((avg_rating_by_gender ratings user).map
        (fun p => (genderColumn ratings user).count p.1)).sum
        = (ratings_users ratings user).length ∧
    ∀ row ∈ ratings, ((∃ q ∈ ratings_users ratings user, q.1 = row) ↔
      ∃ u ∈ user, u.userId = row.userId) := by
  refine ⟨?_, ?_, ?_⟩
  · unfold ratings_by_occupation
    rw [sum_value_counts, List.length_map]
  · unfold avg_rating_by_gender
    rw [List.map_map]
    have hperm : List.Perm
        (((genderColumn ratings user).dedup.insertionSort (fun a b => a ≤ b)).map
          (fun g => (genderColumn ratings user).count g))
        ((genderColumn ratings user).dedup.map
          (fun g => (genderColumn ratings user).count g)) :=
      (List.perm_insertionSort _ _).map _
    have hcol : (genderColumn ratings user).length = (ratings_users ratings user).length := by
      unfold genderColumn
      rw [List.length_map]
    calc (((genderColumn ratings user).dedup.insertionSort (fun a b => a ≤ b)).map
            ((fun p : String × ℚ => (genderColumn ratings user).count p.1) ∘
              fun g => (g, (genderGroup ratings user g).sum /
                ((genderGroup ratings user g).length : ℚ)))).sum
        = (((genderColumn ratings user).dedup.insertionSort (fun a b => a ≤ b)).map
            (fun g => (genderColumn ratings user).count g)).sum := rfl
      _ = ((genderColumn ratings user).dedup.map
            (fun g => (genderColumn ratings user).count g)).sum := hperm.sum_eq
      _ = (genderColumn ratings user).length :=
            List.sum_map_count_dedup_eq_length _
      _ = (ratings_users ratings user).length := hcol
  · intro row hrow
    constructor
    · rintro ⟨q, hq, rfl⟩
      obtain ⟨_, h2, h3⟩ := mem_mergeOn.mp hq
      exact ⟨q.2, h2, h3⟩
    · rintro ⟨u, hu, huid⟩
      exact ⟨(row, u), mem_mergeOn.mpr ⟨hrow, hu, huid⟩, rfl⟩

/-- Witness for C6 on the fixture: the rating row of user 1 appears in the
join because user 1 exists. -/
theorem demographic_counts_partition_witness :
    ∃ q ∈ ratings_users fixtureRatings fixtureUsers, q.1 = (⟨1, 1, 5⟩ : RatingRow) :=
  ((demographic_counts_partition fixtureRatings fixtureUsers).2.2 ⟨1, 1, 5⟩
      (by decide)).mpr
    ⟨⟨1, 25, "M", "student"⟩, by decide, rfl⟩
